import Mathlib

/-!
A verification development for `scripts/gha/print_matrix_configuration.py`.

The Python module is embedded shallowly:
* Python dictionaries become association lists (`List (String × _)`), looked
  up with `List.lookup`, which returns the first binding and models `dict.get`
  on these literal tables.
* The dictionary values appearing in the configuration table become `PValue`
  (a string, a list of strings, or a nested dictionary such as the
  `"expanded"` sub-blocks).
* Fallible code returns `Except GetError _` or `Option _`; an uncaught Python
  `TypeError`/`AttributeError` (e.g. a membership test on `None`) is
  `GetError.crash`, while the `KeyError` raised by `get_value` is
  `GetError.keyError` carrying the key, the parameter kind, the workflow and
  the expanded flag, as in the format string of the source.
* The changed-file set obtained from `git diff` in `filter_values_on_diff` is
  passed in as an explicit `List String` parameter (the subprocess call is
  I/O); Python's `set` iteration is modelled by list iteration, which is
  sound here because every result of the function is either the untouched
  input value or a sorted, duplicate-free aggregate, both independent of the
  iteration order.
* Python's `sorted` on strings is code-point lexicographic; it is embedded as
  an insertion sort over a code-point comparison.
-/

/-- Values stored in the configuration dictionaries of the script: strings
(config parameters), lists of strings (matrix parameters) and nested
dictionaries (the `"expanded"` sub-blocks). -/
inductive PValue where
  | str : String → PValue
  | list : List String → PValue
  | dict : List (String × PValue) → PValue

/-- A parameter dictionary, e.g. the `"matrix"` block of a workflow. -/
abbrev Block := List (String × PValue)

/-- Failure modes of `get_value`: `keyError` is the `KeyError` raised after
the search loop (with the parameter key, the parameter type, the workflow and
the expanded flag), `crash` is an uncaught `TypeError`/`AttributeError`
(e.g. `parm_key in None` when a block is missing). -/
inductive GetError where
  | crash : GetError
  | keyError : String → String → String → Bool → GetError
deriving DecidableEq

def DEFAULT_WORKFLOW : String := "desktop"

def EXPANDED_KEY : String := "expanded"

/-- The `"expanded"` sub-dictionary of the desktop `"matrix"` block. -/
def desktop_matrix_expanded : Block :=
  [("os", PValue.list ["ubuntu-latest", "macos-latest", "windows-latest"]),
   ("xcode_version", PValue.list ["11.7", "12.4"])]

/-- The desktop `"matrix"` block (its `"expanded"` entry is a nested dict). -/
def desktop_matrix : Block :=
  [("os", PValue.list ["ubuntu-latest", "macos-latest"]),
   ("build_type", PValue.list ["Release", "Debug"]),
   ("architecture", PValue.list ["x64", "x86"]),
   ("msvc_runtime", PValue.list ["static", "dynamic"]),
   ("xcode_version", PValue.list ["11.7"]),
   ("python_version", PValue.list ["3.7"]),
   (EXPANDED_KEY, PValue.dict desktop_matrix_expanded)]

def android_matrix_expanded : Block :=
  [("os", PValue.list ["ubuntu-latest", "macos-latest", "windows-latest"])]

def android_matrix : Block :=
  [("os", PValue.list ["ubuntu-latest", "macos-latest", "windows-latest"]),
   ("architecture", PValue.list ["x64"]),
   ("python_version", PValue.list ["3.7"]),
   (EXPANDED_KEY, PValue.dict android_matrix_expanded)]

def integration_tests_matrix : Block :=
  [("os", PValue.list ["ubuntu-latest", "macos-latest", "windows-latest"]),
   ("platform", PValue.list ["Desktop", "Android", "iOS", "tvOS"]),
   ("ssl_lib", PValue.list ["openssl", "boringssl"]),
   ("android_device", PValue.list ["android_latest", "emulator_target"]),
   ("ios_device", PValue.list ["ios_target", "simulator_target"]),
   ("tvos_device", PValue.list ["tvos_simulator_target"]),
   ("build_type", PValue.list ["Debug"]),
   ("architecture_windows_linux", PValue.list ["x64"]),
   ("architecture_macos", PValue.list ["x64"]),
   ("msvc_runtime", PValue.list ["dynamic"]),
   ("cpp_compiler_windows", PValue.list ["VisualStudio2019"]),
   ("cpp_compiler_linux", PValue.list ["clang-11.0"]),
   ("xcode_version", PValue.list ["12"]),
   ("ndk_version", PValue.list ["r22b"]),
   ("platform_version", PValue.list ["28"]),
   ("build_tools_version", PValue.list ["28.0.3"])]

def integration_tests_config : Block :=
  [("apis", PValue.str "admob,analytics,auth,database,dynamic_links,firestore,functions,installations,messaging,remote_config,storage"),
   ("mobile_test_on", PValue.str "real,virtual")]

def ios_matrix_expanded : Block :=
  [("xcode_version", PValue.list ["12", "12.4"])]

def ios_matrix : Block :=
  [("xcode_version", PValue.list ["12"]),
   (EXPANDED_KEY, PValue.dict ios_matrix_expanded)]

def desktop_wb : List (String × Block) := [("matrix", desktop_matrix)]

def android_wb : List (String × Block) := [("matrix", android_matrix)]

def integration_tests_wb : List (String × Block) :=
  [("matrix", integration_tests_matrix), ("config", integration_tests_config)]

def ios_wb : List (String × Block) := [("matrix", ios_matrix)]

/-- The top-level `PARAMETERS` table of the script. -/
def PARAMETERS : List (String × List (String × Block)) :=
  [("desktop", desktop_wb),
   ("android", android_wb),
   ("integration_tests", integration_tests_wb),
   ("ios", ios_wb)]

/-- The value inserted as an extra search block when
`use_expanded and EXPANDED_KEY in block` holds: the nested dictionary stored
under `"expanded"`. Absent keys (and the never-occurring case of a non-dict
value under `"expanded"`; every `"expanded"` entry of `PARAMETERS` is a dict)
yield `none`. -/
def expandedOf (b : Block) : Option Block :=
  match List.lookup EXPANDED_KEY b with
  | some (PValue.dict d) => some d
  | _ => none

/-- The singleton search-block list contributed by the `"expanded"`
sub-dictionary of a block when it is present (empty otherwise). -/
def expOptList (b : Block) : List (Option Block) :=
  match expandedOf b with
  | some e => [some e]
  | none => []

/-- The two default-workflow entries of `search_blocks` in `get_value`:
the standard default block always inserted (a Python `None` when the default
workflow has no block of the requested type), preceded by its expanded
sub-block when requested and present. -/
def default_blocks (use_expanded : Bool) (dpb : Option Block) : List (Option Block) :=
  match dpb with
  | none => [none]
  | some d => (if use_expanded then expOptList d else []) ++ [some d]

/-- The workflow-specific entries of `search_blocks` in `get_value`:
present only when the workflow is not the default one, its table entry exists
and is truthy, and its block of the requested type exists and is truthy; the
expanded sub-block is prepended when requested and present. -/
def workflow_blocks (workflow : String) (use_expanded : Bool) (ptk : String) :
    List (Option Block) :=
  if workflow = DEFAULT_WORKFLOW then []
  else
    match List.lookup workflow PARAMETERS with
    | none => []
    | some wb =>
      if wb.isEmpty then []
      else
        match List.lookup ptk wb with
        | none => []
        | some wpb =>
          if wpb.isEmpty then []
          else (if use_expanded then expOptList wpb else []) ++ [some wpb]

/-- The full `search_blocks` list of `get_value`, in search order
(workflow expanded block, workflow block, default expanded block, default
block, each only when inserted by the source). `dpb` is the default
workflow's block of the requested parameter type. -/
def build_search_blocks (workflow : String) (use_expanded : Bool) (ptk : String)
    (dpb : Option Block) : List (Option Block) :=
  workflow_blocks workflow use_expanded ptk ++ default_blocks use_expanded dpb

/-- The `for search_block in search_blocks` loop of `get_value`: returns the
value of the first block containing the key; reaching a `None` block raises a
`TypeError` (`parm_key in None`); exhausting the list raises the `KeyError`
built in the `for/else` clause. -/
def search_loop (blocks : List (Option Block)) (parm_key : String) (er : GetError) :
    Except GetError PValue :=
  match blocks with
  | [] => Except.error er
  | none :: _ => Except.error GetError.crash
  | some b :: rest =>
    match List.lookup parm_key b with
    | some v => Except.ok v
    | none => search_loop rest parm_key er

/-- `get_value(workflow, use_expanded, parm_key, config_parms_only)` of the
script. The pre-loop `use_expanded and EXPANDED_KEY in default_workflow_parm_block`
test raises a `TypeError` when the default workflow has no block of the
requested type (config lookups: desktop has no `"config"` block). -/
def get_value (workflow : String) (use_expanded : Bool) (parm_key : String)
    (config_parms_only : Bool) : Except GetError PValue :=
  let parm_type_key := if config_parms_only then "config" else "matrix"
  match List.lookup DEFAULT_WORKFLOW PARAMETERS with
  | none => Except.error GetError.crash
  | some default_workflow_block =>
    let dpb := List.lookup parm_type_key default_workflow_block
    if use_expanded && dpb.isNone then Except.error GetError.crash
    else
      search_loop (build_search_blocks workflow use_expanded parm_type_key dpb)
        parm_key (GetError.keyError parm_key parm_type_key workflow use_expanded)

/-- The `TEST_DEVICES` table of the script. -/
def TEST_DEVICES : List (String × List (String × String)) :=
  [("android_min", [("type", "real"), ("model", "Nexus10"), ("version", "19")]),
   ("android_target", [("type", "real"), ("model", "Pixel2"), ("version", "28")]),
   ("android_latest", [("type", "real"), ("model", "flame"), ("version", "29")]),
   ("emulator_min", [("type", "virtual"), ("image", "system-images;android-18;default;x86")]),
   ("emulator_target", [("type", "virtual"), ("image", "system-images;android-28;google_apis;x86_64")]),
   ("emulator_latest", [("type", "virtual"), ("image", "system-images;android-29;default;x86")]),
   ("ios_min", [("type", "real"), ("model", "iphone8"), ("version", "11.4")]),
   ("ios_target", [("type", "real"), ("model", "iphone6s"), ("version", "12.0")]),
   ("ios_latest", [("type", "real"), ("model", "iphone11pro"), ("version", "14.1")]),
   ("simulator_min", [("type", "virtual"), ("name", "iPhone 6"), ("version", "11.4")]),
   ("simulator_target", [("type", "virtual"), ("name", "iPhone 8"), ("version", "12.0")]),
   ("simulator_latest", [("type", "virtual"), ("name", "iPhone 11"), ("version", "14.4")]),
   ("tvos_simulator_target", [("type", "virtual"), ("name", "Apple TV"), ("version", "14.0")])]

/-- `filter_devices(devices, device_type)` of the script: keeps the devices
whose `"type"` attribute is in `device_type`. A device id absent from
`TEST_DEVICES` makes `TEST_DEVICES.get(device)` return `None` and the
subsequent `.get("type")` raise an `AttributeError`, modelled as `none`;
a (never occurring) device without `"type"` yields `None in device_type`,
which is `False`. -/
def filter_devices (devices : List String) (device_type : List String) :
    Option (List String) :=
  match devices with
  | [] => some []
  | d :: rest =>
    match List.lookup d TEST_DEVICES with
    | none => none
    | some attrs =>
      match filter_devices rest device_type with
      | none => none
      | some tail =>
        let keep :=
          match List.lookup "type" attrs with
          | some t => device_type.contains t
          | none => false
        some (if keep then d :: tail else tail)

/-- Code-point comparison of char lists, as Python compares strings. -/
def charListLe : List Char → List Char → Bool
  | [], _ => true
  | _ :: _, [] => false
  | a :: as, b :: bs =>
    if a.toNat < b.toNat then true
    else if b.toNat < a.toNat then false
    else charListLe as bs

/-- Python string comparison `a <= b` (code-point lexicographic). -/
def strLe (a b : String) : Bool := charListLe a.toList b.toList

def insertSorted (s : String) : List String → List String
  | [] => [s]
  | x :: xs => if strLe s x then s :: x :: xs else x :: insertSorted s xs

/-- Python `sorted` on a collection of strings (insertion sort by code-point
order). -/
def sortStrings (l : List String) : List String := l.foldr insertSorted []

/-- `set.add`: a Python set of strings is modelled as a duplicate-free list. -/
def addOnce (s : String) (l : List String) : List String :=
  if l.contains s then l else l ++ [s]

/-- `set(l)` for a list of strings: drop duplicate elements. -/
def dedup (l : List String) : List String := l.foldl (fun acc x => addOnce x acc) []

/-- Python `str.lower()` (the paths handled by the script are ASCII). -/
def strLower (s : String) : String := String.mk (s.toList.map Char.toLower)

def infixOfCharList (sub : List Char) : List Char → Bool
  | [] => sub.isEmpty
  | c :: rest => sub.isPrefixOf (c :: rest) || infixOfCharList sub rest

/-- `re.search` of a literal pattern: substring test. -/
def strContainsSub (s sub : String) : Bool := infixOfCharList sub.toList s.toList

/-- `re.search` of a `pat$` pattern: suffix test. -/
def strEndsWith (s suf : String) : Bool :=
  suf.toList.reverse.isPrefixOf s.toList.reverse

/-- `re.search` of a `^pat` pattern: prefix test. -/
def strStartsWith (s pat : String) : Bool := pat.toList.isPrefixOf s.toList

def splitCommaAux : List Char → List Char → List String
  | [], acc => [String.mk acc.reverse]
  | c :: rest, acc =>
    if c = ',' then String.mk acc.reverse :: splitCommaAux rest []
    else splitCommaAux rest (c :: acc)

/-- Python `s.split(',')` (in particular `"".split(',') == [""]`). -/
def splitComma (s : String) : List String := splitCommaAux s.toList []

/-- `path.split(os.path.sep)[0]`: the top-level directory of a path. -/
def topdir (p : String) : String :=
  String.mk (p.toList.takeWhile (fun c => c ≠ '/'))

/-- `','.join(sorted(s))` for a set kept as a duplicate-free list. -/
def joinSorted (l : List String) : String :=
  String.intercalate "," (sortStrings l)

/-- The `custom_triggers` table of the `'apis'` branch. -/
def custom_triggers : List (String × Option String) :=
  [("external", none),
   ("release_build_files", none),
   ("auth", some "auth,functions,database,firestore,storage")]

/-- Python truthiness test `not custom_triggers[topdir]` on a trigger entry
(`None` and the empty string are falsy). -/
def trigger_falsy : Option String → Bool
  | none => true
  | some s => s = ""

/-- The `if topdir in custom_triggers: if not custom_triggers[topdir]:
continue` test of the `'apis'` loop: the top-level directory is mapped to a
falsy trigger entry. -/
def topdir_falsy (p : String) : Bool :=
  match List.lookup (topdir p) custom_triggers with
  | some t => trigger_falsy t
  | none => false

/-- The effect of one non-aborting, non-skipped `'apis'` loop iteration on
`filtered_api_list`: add the split trigger APIs of a trigger-mapped top-level
directory, then add the directory itself when it is a requested API. -/
def apis_step (requested : List String) (acc : List String) (p : String) :
    List String :=
  if p = "" then acc
  else if topdir_falsy p then acc
  else
    let acc2 :=
      match List.lookup (topdir p) custom_triggers with
      | some t => (splitComma (t.getD "")).foldl (fun a s => addOnce s a) acc
      | none => acc
    if requested.contains (topdir p) then addOnce (topdir p) acc2 else acc2

/-- The `for path in file_list` loop of the `'apis'` branch of
`filter_values_on_diff`, carrying `filtered_api_list` as a duplicate-free
list: empty paths and falsy-mapped directories are skipped, a top-level
directory that is not a requested API hits `else: return value` (the trigger
additions made before the abort only touch the discarded set), and otherwise
the trigger APIs and the directory are added via `apis_step`. -/
def apis_go (value : String) (requested : List String) :
    List String → List String → String
  | [], acc => joinSorted acc
  | p :: rest, acc =>
    if p = "" then apis_go value requested rest acc
    else if topdir_falsy p then apis_go value requested rest acc
    else if requested.contains (topdir p) then
      apis_go value requested rest (apis_step requested acc p)
    else value

/-- The `parm_key == 'apis'` branch of `filter_values_on_diff`; `file_list`
is the changed-path set computed by the `git diff` subprocess call, passed
here as an explicit argument. -/
def filter_values_on_diff_apis (value : String) (file_list : List String) : String :=
  apis_go value (splitComma value) file_list []

/-- The ignorable patterns: `^external/`, `^release_build_files/`, and
`readme` case-insensitively. -/
def ignorableMatch (p : String) : Bool :=
  strStartsWith p "external/" || strStartsWith p "release_build_files/" ||
    strContainsSub (strLower p) "readme"

/-- `re.search(r'android', path, re.IGNORECASE)`. -/
def androidWordMatch (p : String) : Bool := strContainsSub (strLower p) "android"

/-- `re.search(r'\.java$', path)` (case-sensitive). -/
def javaMatch (p : String) : Bool := strEndsWith p ".java"

/-- `re.search(r'gradle', path)` (case-sensitive). -/
def gradleMatch (p : String) : Bool := strContainsSub p "gradle"

/-- The Android pattern group of the `'platform'` branch. -/
def androidMatch (p : String) : Bool :=
  androidWordMatch p || javaMatch p || gradleMatch p

def iosSeps : List String := ["_", ".", "/"]

/-- `re.search(r'[_./]ios[_./]', path, re.IGNORECASE)`. -/
def iosTokenMatch (p : String) : Bool :=
  iosSeps.any fun a => iosSeps.any fun b =>
    strContainsSub (strLower p) (a ++ "ios" ++ b)

/-- `re.search(r'apple', path, re.IGNORECASE)`. -/
def appleMatch (p : String) : Bool := strContainsSub (strLower p) "apple"

/-- `re.search(r'\.mm$', path)` (case-sensitive). -/
def mmMatch (p : String) : Bool := strEndsWith p ".mm"

/-- `re.search(r'xcode', path, re.IGNORECASE)`. -/
def xcodeMatch (p : String) : Bool := strContainsSub (strLower p) "xcode"

/-- `re.search(r'Pod', path)` (case-sensitive, capital P). -/
def podMatch (p : String) : Bool := strContainsSub p "Pod"

/-- The iOS pattern group of the `'platform'` branch. -/
def iosMatch (p : String) : Bool :=
  iosTokenMatch p || appleMatch p || mmMatch p || xcodeMatch p || podMatch p

/-- `re.search(r'desktop', path)` (case-sensitive). -/
def desktopMatch (p : String) : Bool := strContainsSub p "desktop"

/-- The `matched` flag of one `'platform'` loop iteration: the path hits an
ignorable pattern, or a pattern group whose platform is requested. -/
def platform_step_matched (requested : List String) (p : String) : Bool :=
  ignorableMatch p || (requested.contains "Android" && androidMatch p) ||
    (requested.contains "iOS" && iosMatch p) ||
    (requested.contains "Desktop" && desktopMatch p)

/-- The additions one `'platform'` loop iteration makes to
`filtered_platform_list`: each platform that is requested and whose pattern
group matches the path. -/
def platform_step_acc (requested : List String) (acc : List String) (p : String) :
    List String :=
  let acc1 := if requested.contains "Android" && androidMatch p
    then addOnce "Android" acc else acc
  let acc2 := if requested.contains "iOS" && iosMatch p
    then addOnce "iOS" acc1 else acc1
  if requested.contains "Desktop" && desktopMatch p
    then addOnce "Desktop" acc2 else acc2

/-- The `for path in file_list` loop of the `'platform'` branch, carrying
`filtered_platform_list`; a path with no match returns
`sorted(requested_platform_list)`. -/
def platform_go (requested : List String) :
    List String → List String → List String
  | [], acc => sortStrings acc
  | p :: rest, acc =>
    if p = "" then platform_go requested rest acc
    else if platform_step_matched requested p then
      platform_go requested rest (platform_step_acc requested acc p)
    else sortStrings (dedup requested)

/-- The `parm_key == 'platform'` branch of `filter_values_on_diff`. -/
def filter_values_on_diff_platform (value : List String) (file_list : List String) :
    List String :=
  platform_go value file_list []

def hexDigitChar (n : Nat) : Char :=
  if n < 10 then Char.ofNat (48 + n) else Char.ofNat (87 + n)

def hex4 (n : Nat) : String :=
  String.mk [hexDigitChar (n / 4096 % 16), hexDigitChar (n / 256 % 16),
             hexDigitChar (n / 16 % 16), hexDigitChar (n % 16)]

/-- `json.dumps` escaping of one character (default `ensure_ascii=True`:
characters outside `0x20`..`0x7e` are escaped, short escapes as in
`json.encoder.ESCAPE_DCT`; astral characters, absent from every value in the
script, are modelled with a single `\u` escape instead of a surrogate
pair). -/
def escapeChar (c : Char) : String :=
  if c = '"' then "\\\""
  else if c = '\\' then "\\\\"
  else if c = '\n' then "\\n"
  else if c = '\t' then "\\t"
  else if c = '\r' then "\\r"
  else if c = '\x08' then "\\b"
  else if c = '\x0c' then "\\f"
  else if c.toNat < 32 || 126 < c.toNat then "\\u" ++ hex4 c.toNat
  else String.mk [c]

/-- `json.dumps` of a string. -/
def json_dumps_string (s : String) : String :=
  "\"" ++ String.join (s.toList.map escapeChar) ++ "\""

/-- `json.dumps` of a list of strings (default item separator `", "`): the
exact text printed by `print_value` for a matrix value. -/
def print_value_list (l : List String) : String :=
  "[" ++ String.intercalate ", " (l.map json_dumps_string) ++ "]"

def hexVal (c : Char) : Option Nat :=
  if 48 ≤ c.toNat ∧ c.toNat ≤ 57 then some (c.toNat - 48)
  else if 97 ≤ c.toNat ∧ c.toNat ≤ 102 then some (c.toNat - 87)
  else if 65 ≤ c.toNat ∧ c.toNat ≤ 70 then some (c.toNat - 55)
  else none

/-- JSON string-body decoder (fuel-indexed, called with enough fuel for the
input): returns the decoded string and the rest of the input after the
closing quote. -/
def parse_jstring_body : Nat → List Char → List Char → Option (String × List Char)
  | 0, _, _ => none
  | _ + 1, [], _ => none
  | fuel + 1, c :: rest, acc =>
    if c = '"' then some (String.mk acc.reverse, rest)
    else if c = '\\' then
      match rest with
      | [] => none
      | e :: rest2 =>
        if e = '"' then parse_jstring_body fuel rest2 ('"' :: acc)
        else if e = '\\' then parse_jstring_body fuel rest2 ('\\' :: acc)
        else if e = '/' then parse_jstring_body fuel rest2 ('/' :: acc)
        else if e = 'n' then parse_jstring_body fuel rest2 ('\n' :: acc)
        else if e = 't' then parse_jstring_body fuel rest2 ('\t' :: acc)
        else if e = 'r' then parse_jstring_body fuel rest2 ('\r' :: acc)
        else if e = 'b' then parse_jstring_body fuel rest2 ('\x08' :: acc)
        else if e = 'f' then parse_jstring_body fuel rest2 ('\x0c' :: acc)
        else if e = 'u' then
          match rest2 with
          | h1 :: h2 :: h3 :: h4 :: rest3 =>
            match hexVal h1, hexVal h2, hexVal h3, hexVal h4 with
            | some x1, some x2, some x3, some x4 =>
              parse_jstring_body fuel rest3
                (Char.ofNat (4096 * x1 + 256 * x2 + 16 * x3 + x4) :: acc)
            | _, _, _, _ => none
          | _ => none
        else none
    else parse_jstring_body fuel rest (c :: acc)

def isJsonWs (c : Char) : Bool := c = ' ' || c = '\t' || c = '\n' || c = '\r'

def skipWs (cs : List Char) : List Char := cs.dropWhile isJsonWs

/-- Decoder for the elements of a JSON array of strings, after the opening
bracket. -/
def parse_elems : Nat → List Char → List String → Option (List String)
  | 0, _, _ => none
  | fuel + 1, cs, acc =>
    match skipWs cs with
    | '"' :: rest =>
      match parse_jstring_body (rest.length + 1) rest [] with
      | none => none
      | some (s, rest2) =>
        match skipWs rest2 with
        | ',' :: rest3 => parse_elems fuel rest3 (acc ++ [s])
        | ']' :: rest3 => if (skipWs rest3).isEmpty then some (acc ++ [s]) else none
        | _ => none
    | _ => none

/-- JSON-decode a string as an array of strings: the decoding direction of
the round-trip property for `print_value`. -/
def json_parse_string_list (s : String) : Option (List String) :=
  match skipWs s.toList with
  | '[' :: rest =>
    match skipWs rest with
    | ']' :: rest2 => if (skipWs rest2).isEmpty then some [] else none
    | _ => parse_elems (rest.length + 1) rest []
  | _ => none

def optToList : Option Block → List Block
  | some b => [b]
  | none => []

/-- Modelled on the spec sentence for `get_value` (the claimed behaviour, to
be compared with the source embedding): the ordered priority list of the
blocks that exist — workflow expanded block, workflow standard block, default
expanded block, default standard block — skipping any that do not exist
(including the whole workflow entry when the workflow name is unknown). -/
def spec_search_order (workflow : String) (use_expanded : Bool) (ptk : String) :
    List Block :=
  let dpb := (List.lookup DEFAULT_WORKFLOW PARAMETERS).bind fun wb => List.lookup ptk wb
  let wpb := if workflow = DEFAULT_WORKFLOW then none
    else (List.lookup workflow PARAMETERS).bind fun wb => List.lookup ptk wb
  optToList (if use_expanded then wpb.bind expandedOf else none) ++
    optToList wpb ++
    optToList (if use_expanded then dpb.bind expandedOf else none) ++
    optToList dpb

/-- The value of the key in the first dictionary of the list that contains
it, as the spec describes the lookup result. -/
def first_containing (blocks : List Block) (k : String) : Option PValue :=
  blocks.findSome? fun b => List.lookup k b

/-- The union of triggered APIs over the changed paths, sorted and
comma-joined: the result the spec describes for the `'apis'` branch. -/
def apis_union (value : String) (file_list : List String) : String :=
  joinSorted (file_list.foldl (apis_step (splitComma value)) [])

/-- A changed path on which the `'apis'` loop aborts: nonempty, its top-level
directory not mapped to a falsy trigger entry, and not a requested API
name. -/
def apis_bad_path (requested : List String) (p : String) : Bool :=
  p != "" && !topdir_falsy p && !(requested.contains (topdir p))

/-- A changed path matching none of the android/ios/desktop pattern groups
and none of the ignorable patterns. -/
def platform_unmatched_path (p : String) : Bool :=
  p != "" && !ignorableMatch p && !androidMatch p && !iosMatch p && !desktopMatch p

/-- Every parameter dictionary stored in `PARAMETERS` (standard and expanded,
matrix and config). -/
def ALL_BLOCKS : List Block :=
  [desktop_matrix_expanded, desktop_matrix, android_matrix_expanded,
   android_matrix, integration_tests_matrix, integration_tests_config,
   ios_matrix_expanded, ios_matrix]

/-- Every value stored in a parameter dictionary of `PARAMETERS`. -/
def ALL_VALUES : List PValue := ALL_BLOCKS.flatMap fun b => b.map Prod.snd

/-- `rt_ok v` checks the encode/decode round trip when `v` is a list value
(used to settle the round-trip property over the finitely many table
values). -/
def rt_ok (v : PValue) : Bool :=
  match v with
  | PValue.list l => json_parse_string_list (print_value_list l) == some l
  | _ => true

theorem lookup_mem {β : Type} {a : String} {l : List (String × β)} {b : β}
    (h : List.lookup a l = some b) : b ∈ l.map Prod.snd := by
  induction l with
  | nil => cases h
  | cons hd tl ih =>
    rw [List.lookup] at h
    cases hbeq : (a == hd.1) with
    | true => rw [hbeq] at h; cases h; exact List.mem_cons_self _ _
    | false => rw [hbeq] at h; exact List.mem_cons_of_mem _ (ih h)

theorem search_loop_map_some (bs : List Block) (k : String) (er : GetError) :
    search_loop (bs.map Option.some) k er =
      match first_containing bs k with
      | some v => Except.ok v
      | none => Except.error er := by
  induction bs with
  | nil => rfl
  | cons b rest ih =>
    rw [List.map_cons, search_loop, first_containing, List.findSome?_cons]
    cases h : List.lookup k b with
    | some v => rfl
    | none => rw [ih]; rfl

theorem search_loop_mem (blocks : List (Option Block)) (k : String) (er : GetError)
    (v : PValue) (h : search_loop blocks k er = Except.ok v) :
    ∃ b, Option.some b ∈ blocks ∧ v ∈ b.map Prod.snd := by
  induction blocks with
  | nil => cases h
  | cons ob rest ih =>
    cases ob with
    | none => cases h
    | some b =>
      rw [search_loop] at h
      cases hl : List.lookup k b with
      | some w =>
        rw [hl] at h
        cases h
        exact ⟨b, List.mem_cons_self _ _, lookup_mem hl⟩
      | none =>
        rw [hl] at h
        obtain ⟨b2, hb2, hv2⟩ := ih h
        exact ⟨b2, List.mem_cons_of_mem _ hb2, hv2⟩

theorem lookup_cons_ne {β : Type} (a k : String) (b : β) (l : List (String × β))
    (h : a ≠ k) : List.lookup a ((k, b) :: l) = List.lookup a l := by
  rw [List.lookup]
  rw [show (a == k) = false from beq_eq_false_iff_ne.mpr h]

theorem lookup_params_none (w : String) (h1 : w ≠ "desktop") (h2 : w ≠ "android")
    (h3 : w ≠ "integration_tests") (h4 : w ≠ "ios") :
    List.lookup w PARAMETERS = none := by
  rw [PARAMETERS, lookup_cons_ne _ _ _ _ h1, lookup_cons_ne _ _ _ _ h2,
    lookup_cons_ne _ _ _ _ h3, lookup_cons_ne _ _ _ _ h4]
  rfl

theorem matrix_chain_eq (w : String) (e : Bool) :
    build_search_blocks w e "matrix" (List.lookup "matrix" desktop_wb)
      = (spec_search_order w e "matrix").map Option.some := by
  by_cases h1 : w = "desktop"
  · subst h1; cases e <;> rfl
  · by_cases h2 : w = "android"
    · subst h2; cases e <;> rfl
    · by_cases h3 : w = "integration_tests"
      · subst h3; cases e <;> rfl
      · by_cases h4 : w = "ios"
        · subst h4; cases e <;> rfl
        · have hl := lookup_params_none w h1 h2 h3 h4
          rw [build_search_blocks, workflow_blocks, spec_search_order]
          rw [if_neg (show ¬(w = DEFAULT_WORKFLOW) from h1), hl]
          rw [if_neg (show ¬(w = DEFAULT_WORKFLOW) from h1)]
          cases e <;> rfl

theorem get_value_matrix_eq (w : String) (e : Bool) (k : String) :
    get_value w e k false =
      search_loop (build_search_blocks w e "matrix" (List.lookup "matrix" desktop_wb)) k
        (GetError.keyError k "matrix" w e) := by
  cases e <;> rfl

theorem get_value_matrix_first_containing (w : String) (e : Bool) (k : String)
    (v : PValue) (h : first_containing (spec_search_order w e "matrix") k = some v) :
    get_value w e k false = Except.ok v := by
  rw [get_value_matrix_eq, matrix_chain_eq, search_loop_map_some, h]

theorem config_chain_eq (w : String) :
    workflow_blocks w false "config"
      = (spec_search_order w false "config").map Option.some := by
  by_cases h1 : w = "desktop"
  · subst h1; rfl
  · by_cases h2 : w = "android"
    · subst h2; rfl
    · by_cases h3 : w = "integration_tests"
      · subst h3; rfl
      · by_cases h4 : w = "ios"
        · subst h4; rfl
        · have hl := lookup_params_none w h1 h2 h3 h4
          rw [workflow_blocks, spec_search_order]
          rw [if_neg (show ¬(w = DEFAULT_WORKFLOW) from h1), hl]
          rw [if_neg (show ¬(w = DEFAULT_WORKFLOW) from h1)]
          rfl

theorem search_loop_append_found (bs : List Block) (rest : List (Option Block))
    (k : String) (er : GetError) (v : PValue)
    (h : first_containing bs k = some v) :
    search_loop (bs.map Option.some ++ rest) k er = Except.ok v := by
  induction bs with
  | nil => cases h
  | cons b bs ih =>
    rw [first_containing, List.findSome?_cons] at h
    rw [List.map_cons, List.cons_append, search_loop]
    cases hl : List.lookup k b with
    | some u =>
      simp only [hl, Option.some.injEq] at h
      subst h
      rfl
    | none =>
      simp only [hl] at h
      exact ih h

/-- C1 (amended): `get_value` searches the priority order expanded-workflow,
standard-workflow, expanded-default, standard-default, skipping blocks that
do not exist (including the whole workflow entry for an unknown workflow
name), and returns the value of the key from the first dictionary containing
it — for every matrix lookup, and for config lookups without the expanded
flag; a config lookup with the expanded flag crashes before searching, since
the missing default config block is not skipped. -/
theorem get_value_first_containing :
    (∀ (w : String) (e : Bool) (k : String) (v : PValue),
      first_containing (spec_search_order w e "matrix") k = some v →
      get_value w e k false = Except.ok v)
    ∧ (∀ (w k : String) (v : PValue),
      first_containing (spec_search_order w false "config") k = some v →
      get_value w false k true = Except.ok v) := by
  constructor
  · exact get_value_matrix_first_containing
  · intro w k v h
    have hred : get_value w false k true
        = search_loop (workflow_blocks w false "config" ++ [none]) k
            (GetError.keyError k "config" w false) := rfl
    rw [hred, config_chain_eq]
    exact search_loop_append_found _ _ _ _ _ h

theorem mem_exp_append (X : Block) (e : Bool) (b : Block)
    (h : Option.some b ∈ (if e = true then expOptList X else []) ++ [Option.some X]) :
    b = X ∨ expandedOf X = some b := by
  rcases List.mem_append.mp h with h | h
  · cases e
    · simp at h
    · rw [if_pos rfl, expOptList] at h
      cases hx : expandedOf X with
      | none => simp only [hx] at h; cases h
      | some E =>
        simp only [hx, List.mem_singleton, Option.some.injEq] at h
        subst h
        exact Or.inr rfl
  · simp only [List.mem_singleton, Option.some.injEq] at h
    subst h
    exact Or.inl rfl

theorem workflow_blocks_sub (w : String) (e : Bool) (ptk : String) (b : Block)
    (h : Option.some b ∈ workflow_blocks w e ptk) : b ∈ ALL_BLOCKS := by
  rw [workflow_blocks] at h
  by_cases h1 : w = DEFAULT_WORKFLOW
  · rw [if_pos h1] at h; cases h
  · rw [if_neg h1] at h
    cases hw : List.lookup w PARAMETERS with
    | none => rw [hw] at h; cases h
    | some wb =>
      rw [hw] at h
      have hwb := lookup_mem hw
      rw [PARAMETERS] at hwb
      simp only [List.map_cons, List.map_nil, List.mem_cons, List.not_mem_nil,
        or_false] at hwb
      rcases hwb with rfl | rfl | rfl | rfl
      · simp only [show desktop_wb.isEmpty = false from rfl, Bool.false_eq_true,
          if_false] at h
        cases hp : List.lookup ptk desktop_wb with
        | none => simp only [hp] at h; cases h
        | some wpb =>
          simp only [hp] at h
          have hwpb := lookup_mem hp
          rw [desktop_wb] at hwpb
          simp only [List.map_cons, List.map_nil, List.mem_cons, List.not_mem_nil,
            or_false] at hwpb
          subst hwpb
          simp only [show desktop_matrix.isEmpty = false from rfl, Bool.false_eq_true,
            if_false] at h
          rcases mem_exp_append _ _ _ h with rfl | hx
          · simp [ALL_BLOCKS]
          · rw [show expandedOf desktop_matrix = some desktop_matrix_expanded from rfl] at hx
            injection hx with hx
            subst hx
            simp [ALL_BLOCKS]
      · simp only [show android_wb.isEmpty = false from rfl, Bool.false_eq_true,
          if_false] at h
        cases hp : List.lookup ptk android_wb with
        | none => simp only [hp] at h; cases h
        | some wpb =>
          simp only [hp] at h
          have hwpb := lookup_mem hp
          rw [android_wb] at hwpb
          simp only [List.map_cons, List.map_nil, List.mem_cons, List.not_mem_nil,
            or_false] at hwpb
          subst hwpb
          simp only [show android_matrix.isEmpty = false from rfl, Bool.false_eq_true,
            if_false] at h
          rcases mem_exp_append _ _ _ h with rfl | hx
          · simp [ALL_BLOCKS]
          · rw [show expandedOf android_matrix = some android_matrix_expanded from rfl] at hx
            injection hx with hx
            subst hx
            simp [ALL_BLOCKS]
      · simp only [show integration_tests_wb.isEmpty = false from rfl, Bool.false_eq_true,
          if_false] at h
        cases hp : List.lookup ptk integration_tests_wb with
        | none => simp only [hp] at h; cases h
        | some wpb =>
          simp only [hp] at h
          have hwpb := lookup_mem hp
          rw [integration_tests_wb] at hwpb
          simp only [List.map_cons, List.map_nil, List.mem_cons, List.not_mem_nil,
            or_false] at hwpb
          rcases hwpb with rfl | rfl
          · simp only [show integration_tests_matrix.isEmpty = false from rfl,
              Bool.false_eq_true, if_false] at h
            rcases mem_exp_append _ _ _ h with rfl | hx
            · simp [ALL_BLOCKS]
            · rw [show expandedOf integration_tests_matrix = none from rfl] at hx
              cases hx
          · simp only [show integration_tests_config.isEmpty = false from rfl,
              Bool.false_eq_true, if_false] at h
            rcases mem_exp_append _ _ _ h with rfl | hx
            · simp [ALL_BLOCKS]
            · rw [show expandedOf integration_tests_config = none from rfl] at hx
              cases hx
      · simp only [show ios_wb.isEmpty = false from rfl, Bool.false_eq_true,
          if_false] at h
        cases hp : List.lookup ptk ios_wb with
        | none => simp only [hp] at h; cases h
        | some wpb =>
          simp only [hp] at h
          have hwpb := lookup_mem hp
          rw [ios_wb] at hwpb
          simp only [List.map_cons, List.map_nil, List.mem_cons, List.not_mem_nil,
            or_false] at hwpb
          subst hwpb
          simp only [show ios_matrix.isEmpty = false from rfl, Bool.false_eq_true,
            if_false] at h
          rcases mem_exp_append _ _ _ h with rfl | hx
          · simp [ALL_BLOCKS]
          · rw [show expandedOf ios_matrix = some ios_matrix_expanded from rfl] at hx
            injection hx with hx
            subst hx
            simp [ALL_BLOCKS]

theorem all_values_of_block {b : Block} {v : PValue} (hb : b ∈ ALL_BLOCKS)
    (hv : v ∈ b.map Prod.snd) : v ∈ ALL_VALUES :=
  List.mem_flatMap.mpr ⟨b, hb, hv⟩

theorem get_value_ok_mem (w : String) (e : Bool) (k : String) (co : Bool)
    (v : PValue) (h : get_value w e k co = Except.ok v) : v ∈ ALL_VALUES := by
  cases co with
  | false =>
    rw [get_value_matrix_eq] at h
    obtain ⟨b, hb, hv⟩ := search_loop_mem _ _ _ _ h
    rw [build_search_blocks] at hb
    rcases List.mem_append.mp hb with hb | hb
    · exact all_values_of_block (workflow_blocks_sub _ _ _ _ hb) hv
    · rw [show List.lookup "matrix" desktop_wb = some desktop_matrix from rfl] at hb
      simp only [default_blocks] at hb
      rcases mem_exp_append _ _ _ hb with rfl | hx
      · exact all_values_of_block (by simp [ALL_BLOCKS]) hv
      · rw [show expandedOf desktop_matrix = some desktop_matrix_expanded from rfl] at hx
        injection hx with hx
        subst hx
        exact all_values_of_block (by simp [ALL_BLOCKS]) hv
  | true =>
    cases e with
    | true =>
      rw [show get_value w true k true = Except.error GetError.crash from rfl] at h
      cases h
    | false =>
      have hred : get_value w false k true
          = search_loop (build_search_blocks w false "config" none) k
              (GetError.keyError k "config" w false) := rfl
      rw [hred] at h
      obtain ⟨b, hb, hv⟩ := search_loop_mem _ _ _ _ h
      rw [build_search_blocks] at hb
      rcases List.mem_append.mp hb with hb | hb
      · exact all_values_of_block (workflow_blocks_sub _ _ _ _ hb) hv
      · simp only [default_blocks] at hb
        simp at hb

/-- C9: every list value returned by `get_value`, printed by `print_value`
as JSON, decodes back to the identical list. -/
theorem get_value_list_print_roundtrip (w : String) (e : Bool) (k : String)
    (co : Bool) (l : List String)
    (h : get_value w e k co = Except.ok (PValue.list l)) :
    json_parse_string_list (print_value_list l) = some l := by
  have hv := get_value_ok_mem w e k co _ h
  have hall : ALL_VALUES.all rt_ok = true := rfl
  have hok := List.all_eq_true.mp hall _ hv
  simpa [rt_ok] using hok

/-- C9 witness: the round trip at a concrete `get_value` result. -/
theorem get_value_list_print_roundtrip_witness :
    get_value "desktop" false "os" false
        = Except.ok (PValue.list ["ubuntu-latest", "macos-latest"])
      ∧ json_parse_string_list (print_value_list ["ubuntu-latest", "macos-latest"])
        = some ["ubuntu-latest", "macos-latest"] :=
  ⟨rfl, get_value_list_print_roundtrip "desktop" false "os" false _ rfl⟩

theorem apis_go_abort (value : String) (requested : List String) (paths : List String)
    (h : paths.any (apis_bad_path requested) = true) :
    ∀ acc, apis_go value requested paths acc = value := by
  induction paths with
  | nil => cases h
  | cons p rest ih =>
    intro acc
    rw [List.any_cons] at h
    simp only [apis_go]
    by_cases hp : p = ""
    · rw [if_pos hp]
      have hb : apis_bad_path requested p = false := by simp [apis_bad_path, hp]
      rw [hb, Bool.false_or] at h
      exact ih h acc
    · rw [if_neg hp]
      by_cases hf : topdir_falsy p = true
      · rw [if_pos hf]
        have hb : apis_bad_path requested p = false := by simp [apis_bad_path, hf]
        rw [hb, Bool.false_or] at h
        exact ih h acc
      · rw [if_neg hf]
        by_cases hc : requested.contains (topdir p) = true
        · rw [if_pos hc]
          have hb : apis_bad_path requested p = false := by
            simp [apis_bad_path, List.mem_of_elem_eq_true hc]
          rw [hb, Bool.false_or] at h
          exact ih h _
        · rw [if_neg hc]

theorem apis_go_no_abort (value : String) (requested : List String)
    (paths : List String) (h : paths.any (apis_bad_path requested) = false) :
    ∀ acc, apis_go value requested paths acc
      = joinSorted (paths.foldl (apis_step requested) acc) := by
  induction paths with
  | nil => intro acc; rfl
  | cons p rest ih =>
    intro acc
    rw [List.any_cons, Bool.or_eq_false_iff] at h
    obtain ⟨h1, h2⟩ := h
    rw [List.foldl_cons]
    simp only [apis_go]
    by_cases hp : p = ""
    · rw [if_pos hp, show apis_step requested acc p = acc from by simp [apis_step, hp]]
      exact ih h2 acc
    · rw [if_neg hp]
      by_cases hf : topdir_falsy p = true
      · rw [if_pos hf,
          show apis_step requested acc p = acc from by simp [apis_step, hp, hf]]
        exact ih h2 acc
      · rw [if_neg hf]
        have hc : requested.contains (topdir p) = true := by
          simp [apis_bad_path, hp, hf] at h1
          exact List.elem_eq_true_of_mem h1
        rw [if_pos hc]
        exact ih h2 _

theorem platform_go_abort (requested : List String) (paths : List String)
    (h : paths.any platform_unmatched_path = true) :
    ∀ acc, platform_go requested paths acc = sortStrings (dedup requested) := by
  induction paths with
  | nil => cases h
  | cons p rest ih =>
    intro acc
    rw [List.any_cons] at h
    simp only [platform_go]
    by_cases hp : p = ""
    · rw [if_pos hp]
      have hb : platform_unmatched_path p = false := by
        simp [platform_unmatched_path, hp]
      rw [hb, Bool.false_or] at h
      exact ih h acc
    · rw [if_neg hp]
      by_cases hm : platform_step_matched requested p = true
      · rw [if_pos hm]
        have hb : platform_unmatched_path p = false := by
          simp only [platform_step_matched, Bool.or_eq_true, Bool.and_eq_true] at hm
          rcases hm with ((hg | ha) | hi) | hd
          · simp [platform_unmatched_path, hg]
          · simp [platform_unmatched_path, ha.2]
          · simp [platform_unmatched_path, hi.2]
          · simp [platform_unmatched_path, hd.2]
        rw [hb, Bool.false_or] at h
        exact ih h _
      · rw [if_neg hm]

/-- C1 witness: the priority theorem applied at concrete inputs — the ios
workflow's expanded override of `xcode_version`, and an unknown workflow
falling back to the desktop `os` value. -/
theorem get_value_first_containing_witness :
    first_containing (spec_search_order "ios" true "matrix") "xcode_version"
        = some (PValue.list ["12", "12.4"])
      ∧ get_value "ios" true "xcode_version" false
        = Except.ok (PValue.list ["12", "12.4"])
      ∧ get_value "nonexistent_workflow" false "os" false
        = Except.ok (PValue.list ["ubuntu-latest", "macos-latest"]) :=
  ⟨rfl, get_value_first_containing.1 "ios" true "xcode_version" _ rfl,
   get_value_first_containing.1 "nonexistent_workflow" false "os" _ rfl⟩

/-- C1 counterexample: for a config parameter with the expanded flag set, the
first dictionary of the claimed priority list contains the key, yet
`get_value` raises a `TypeError` (the default workflow has no config block,
and the pre-loop membership test runs on `None`) instead of returning the
value. -/
theorem get_value_config_expanded_crash :
    first_containing (spec_search_order "integration_tests" true "config") "apis"
        = some (PValue.str "admob,analytics,auth,database,dynamic_links,firestore,functions,installations,messaging,remote_config,storage")
      ∧ get_value "integration_tests" true "apis" true
        = Except.error GetError.crash :=
  ⟨rfl, rfl⟩

/-- C2: for a missing key of the config kind, `get_value` does not raise the
documented key-not-found `KeyError`: the search loop reaches the `None`
standing in for the absent desktop config block and raises a `TypeError`;
for the matrix kind the typed `KeyError` carrying key, kind, workflow and
expanded flag is raised as documented. -/
theorem get_value_missing_key_behaviour :
    get_value "android" false "apis" true = Except.error GetError.crash
      ∧ get_value "desktop" false "not_a_real_key" false
        = Except.error (GetError.keyError "not_a_real_key" "matrix" "desktop" false) :=
  ⟨rfl, rfl⟩

theorem default_blocks_some_ne_nil (e : Bool) (d : Block) :
    default_blocks e (some d) ≠ [] := by
  cases e <;> simp [default_blocks]

/-- C3 (amended): for the matrix kind the desktop standard block exists and
is always the last entry of the search list; for the config kind the desktop
workflow has no block, and the `None` inserted in its place is the last
entry. -/
theorem search_blocks_last (w : String) (e : Bool) :
    (build_search_blocks w e "matrix" (List.lookup "matrix" desktop_wb)).getLast?
        = some (some desktop_matrix)
      ∧ (build_search_blocks w e "config" (List.lookup "config" desktop_wb)).getLast?
        = some none := by
  constructor
  · rw [show List.lookup "matrix" desktop_wb = some desktop_matrix from rfl,
      build_search_blocks,
      List.getLast?_append_of_ne_nil _ (default_blocks_some_ne_nil e desktop_matrix)]
    cases e <;> rfl
  · rw [show List.lookup "config" desktop_wb = none from rfl, build_search_blocks,
      List.getLast?_append_of_ne_nil _ (show default_blocks e none ≠ [] from by
        simp [default_blocks])]
    rfl

/-- C3 counterexample: the desktop workflow has no `"config"` block, so for
config lookups the last search-list entry is `None`, not an existing default
standard block, and reaching it crashes the lookup. -/
theorem desktop_config_block_missing :
    List.lookup "config" desktop_wb = none
      ∧ build_search_blocks "android" false "config" (List.lookup "config" desktop_wb)
        = [none]
      ∧ get_value "android" false "os" true = Except.error GetError.crash :=
  ⟨rfl, rfl, rfl⟩

/-- C4 (amended): when every nonempty changed path has a top-level directory
that is mapped to a falsy trigger entry or is a requested API name (so the
abort branch is never taken), the `'apis'` filter returns the union of the
triggered APIs — trigger additions for trigger-mapped directories plus the
requested directory names — sorted and comma-joined. -/
theorem filter_apis_no_abort_union (value : String) (file_list : List String)
    (h : file_list.any (apis_bad_path (splitComma value)) = false) :
    filter_values_on_diff_apis value file_list = apis_union value file_list :=
  apis_go_no_abort value (splitComma value) file_list h []

/-- C4 witness: the spec example — `"auth,functions"` with changed path
`auth/foo.cc` yields `"auth,database,firestore,functions,storage"`. -/
theorem filter_apis_no_abort_union_witness :
    (["auth/foo.cc"].any (apis_bad_path (splitComma "auth,functions"))) = false
      ∧ filter_values_on_diff_apis "auth,functions" ["auth/foo.cc"]
        = "auth,database,firestore,functions,storage" :=
  ⟨rfl, by
    rw [filter_apis_no_abort_union "auth,functions" ["auth/foo.cc"] rfl]
    rfl⟩

/-- C4 counterexample: with requested value `"database"` and changed path
`auth/foo.cc`, the top directory `auth` is trigger-mapped, yet the function
aborts (`auth` is not a requested API) and returns `"database"` instead of
the sorted union the claim describes. -/
theorem filter_apis_union_counterexample :
    filter_values_on_diff_apis "database" ["auth/foo.cc"] = "database"
      ∧ apis_union "database" ["auth/foo.cc"]
        = "auth,database,firestore,functions,storage"
      ∧ filter_values_on_diff_apis "database" ["auth/foo.cc"]
          ≠ apis_union "database" ["auth/foo.cc"] :=
  ⟨rfl, rfl, by decide⟩

/-- C5 (amended): the `'apis'` filter aborts and returns the original value
exactly when some nonempty changed path has a top-level directory that is
neither mapped to a falsy (`None`) trigger entry nor a requested API name —
a directory mapped to a trigger string also aborts unless it is itself
requested; otherwise it returns the sorted comma-joined union. -/
theorem filter_apis_abort_characterization (value : String) (file_list : List String) :
    (file_list.any (apis_bad_path (splitComma value)) = true →
      filter_values_on_diff_apis value file_list = value)
    ∧ (file_list.any (apis_bad_path (splitComma value)) = false →
      filter_values_on_diff_apis value file_list = apis_union value file_list) :=
  ⟨fun h => apis_go_abort value (splitComma value) file_list h [],
   fun h => apis_go_no_abort value (splitComma value) file_list h []⟩

/-- C5 witness: the abort characterization applied at a concrete input. -/
theorem filter_apis_abort_characterization_witness :
    (["external/x.txt", "auth/y.cc"].any (apis_bad_path (splitComma "storage"))) = true
      ∧ filter_values_on_diff_apis "storage" ["external/x.txt", "auth/y.cc"]
        = "storage" :=
  ⟨rfl,
   (filter_apis_abort_characterization "storage" ["external/x.txt", "auth/y.cc"]).1 rfl⟩

/-- C5 counterexample: `auth` is a recognized (trigger-mapped) top-level
directory, yet with requested value `"functions"` the filter aborts and
returns the original value rather than the union. -/
theorem apis_recognized_dir_aborts :
    (List.lookup (topdir "auth/foo.cc") custom_triggers).isSome = true
      ∧ filter_values_on_diff_apis "functions" ["auth/foo.cc"] = "functions"
      ∧ apis_union "functions" ["auth/foo.cc"]
        = "auth,database,firestore,functions,storage" :=
  ⟨rfl, rfl, rfl⟩

/-- C6 (amended): when some changed path matches none of the
android/ios/desktop pattern groups and none of the ignorable patterns, the
`'platform'` filter returns `sorted(set(value))` — the requested platforms,
de-duplicated and sorted, which equals the original list exactly when that
list is already sorted and duplicate-free. -/
theorem filter_platform_unmatched_fallback (value : List String)
    (file_list : List String) (h : file_list.any platform_unmatched_path = true) :
    filter_values_on_diff_platform value file_list = sortStrings (dedup value) :=
  platform_go_abort value file_list h []

/-- C6 witness: the fallback theorem at the spec example, where the requested
list is sorted and duplicate-free and therefore returned unchanged. -/
theorem filter_platform_unmatched_fallback_witness :
    (["somefile.txt"].any platform_unmatched_path) = true
      ∧ filter_values_on_diff_platform ["Android", "iOS"] ["somefile.txt"]
        = ["Android", "iOS"] :=
  ⟨rfl, by
    rw [filter_platform_unmatched_fallback ["Android", "iOS"] ["somefile.txt"] rfl]
    rfl⟩

/-- C6 counterexample: with the requested platforms listed as
`["iOS", "Android"]`, the fallback returns the sorted set
`["Android", "iOS"]`, not the list as it was passed in. -/
theorem filter_platform_fallback_not_identity :
    filter_values_on_diff_platform ["iOS", "Android"] ["somefile.txt"]
        = ["Android", "iOS"]
      ∧ filter_values_on_diff_platform ["iOS", "Android"] ["somefile.txt"]
          ≠ ["iOS", "Android"] :=
  ⟨rfl, by decide⟩

/-- C7 (amended): the `android`, `readme`, `[_./]ios[_./]`, `apple` and
`xcode` patterns are matched case-insensitively — they depend only on the
lower-cased path — while `\.java$`, `gradle`, `\.mm$`, `Pod`, `desktop`,
`^external/` and `^release_build_files/` are case-sensitive. -/
theorem ci_patterns_lower_invariant (p q : String) (h : strLower p = strLower q) :
    androidWordMatch p = androidWordMatch q
      ∧ strContainsSub (strLower p) "readme" = strContainsSub (strLower q) "readme"
      ∧ iosTokenMatch p = iosTokenMatch q
      ∧ appleMatch p = appleMatch q
      ∧ xcodeMatch p = xcodeMatch q := by
  refine ⟨?_, ?_, ?_, ?_, ?_⟩ <;>
    simp only [androidWordMatch, iosTokenMatch, appleMatch, xcodeMatch, h]

/-- C7 witness: the case-insensitive android pattern at concrete inputs of
different case. -/
theorem ci_patterns_lower_invariant_witness :
    strLower "src/ANDROID/a.cc" = strLower "src/android/a.cc"
      ∧ androidWordMatch "src/ANDROID/a.cc" = androidWordMatch "src/android/a.cc" :=
  ⟨rfl, (ci_patterns_lower_invariant "src/ANDROID/a.cc" "src/android/a.cc" rfl).1⟩

/-- C7 counterexample: the `desktop` pattern is case-sensitive, so changing
the letter case of a changed path changes which platforms are matched
(lower-case `desktop/` matches Desktop; upper-case `DESKTOP/` matches
nothing and triggers the full-list fallback). -/
theorem platform_case_sensitivity_counterexample :
    filter_values_on_diff_platform ["Android", "Desktop"] ["desktop/p.cc"]
        = ["Desktop"]
      ∧ filter_values_on_diff_platform ["Android", "Desktop"] ["DESKTOP/p.cc"]
        = ["Android", "Desktop"]
      ∧ filter_values_on_diff_platform ["Android", "Desktop"] ["desktop/p.cc"]
          ≠ filter_values_on_diff_platform ["Android", "Desktop"] ["DESKTOP/p.cc"] :=
  ⟨rfl, rfl, by decide⟩

/-- C8: on device ids present in the registry, `filter_devices` returns
exactly the sublist of devices whose registered `"type"` attribute is
contained in `device_type`. -/
theorem filter_devices_type_filter (devices device_type : List String)
    (h : ∀ d ∈ devices, (List.lookup d TEST_DEVICES).isSome = true) :
    filter_devices devices device_type = some (devices.filter fun d =>
      match (List.lookup d TEST_DEVICES).bind
          (fun attrs => List.lookup "type" attrs) with
      | some t => device_type.contains t
      | none => false) := by
  induction devices with
  | nil => rfl
  | cons d rest ih =>
    have hd := h d (List.mem_cons_self _ _)
    obtain ⟨attrs, hattrs⟩ := Option.isSome_iff_exists.mp hd
    have htail := ih fun x hx => h x (List.mem_cons_of_mem _ hx)
    rw [List.filter_cons]
    simp only [filter_devices, hattrs, htail, Option.some_bind]

/-- C8 witness: the filtering theorem at the spec example. -/
theorem filter_devices_type_filter_witness :
    (∀ d ∈ ["android_min", "emulator_target"],
        (List.lookup d TEST_DEVICES).isSome = true)
      ∧ filter_devices ["android_min", "emulator_target"] ["virtual"]
        = some ["emulator_target"] :=
  ⟨by decide, by
    rw [filter_devices_type_filter ["android_min", "emulator_target"] ["virtual"]
      (by decide)]
    rfl⟩

/-- C10: an empty changed-path set — the empty set, or the set containing
only the empty string as produced by an empty `git diff` output — makes the
filter return the empty result (empty string for `'apis'`, empty list for
`'platform'`) for every requested value. -/
theorem filter_diff_empty (value : String) (pvalue : List String) :
    filter_values_on_diff_apis value [] = ""
      ∧ filter_values_on_diff_apis value [""] = ""
      ∧ filter_values_on_diff_platform pvalue [] = []
      ∧ filter_values_on_diff_platform pvalue [""] = [] :=
  ⟨rfl, rfl, rfl, rfl⟩
